import Mathlib

/-!
Shallow embedding of the resilient HTTP client of this repository
(src/core/http: `types.ts`, `config.ts`, `utils.ts`, `client.ts`).

Modelling conventions:
- JS numbers are rationals (`ℚ`) where fractional values occur
  (backoff arithmetic, jitter), and integers (`ℤ`) for counters,
  millisecond timestamps and HTTP status codes.
- Absent/optional JS record fields are `Option` values; the nullish
  coalescing operator `??` is `Option.getD`; an object spread
  `{...base, ...overrides}` where `overrides` may omit fields is a
  field-by-field overlay of the present fields.
- The nondeterministic environment of a call (wall-clock readings,
  raw transport outcomes of each attempt, `Math.random()` draws) is an
  explicit oracle record; the retry loop is a function of it.
- Errors are a tagged union mirroring the class hierarchy of
  `types.ts`; fields irrelevant to control flow (message strings,
  response headers and bodies) are elided.
-/

namespace HttpRetry

/-- Backoff strategy configuration (`types.ts`, `BackoffConfig`):
`initialDelay`, `multiplier`, `maxDelay` in milliseconds, `jitter` flag. -/
structure BackoffConfig where
  initialDelay : ℚ
  multiplier : ℚ
  maxDelay : ℚ
  jitter : Bool
  deriving DecidableEq

/-- Logging configuration (`types.ts`, `LoggingConfig`); the level union
type is modelled as a string. -/
structure LoggingConfig where
  level : String
  logRetries : Bool
  deriving DecidableEq

/-- Process-wide configuration (`types.ts`, `GlobalConfig`): every field
present. -/
structure GlobalConfig where
  maxRetries : ℤ
  requestTimeout : ℤ
  globalTimeout : ℤ
  backoff : BackoffConfig
  logging : LoggingConfig
  deriving DecidableEq

/-- A possibly-incomplete backoff object (TS `Partial` of
`BackoffConfig`): each field may be absent. -/
structure BackoffOverride where
  initialDelay : Option ℚ := none
  multiplier : Option ℚ := none
  maxDelay : Option ℚ := none
  jitter : Option Bool := none
  deriving DecidableEq

/-- A possibly-incomplete logging object (TS `Partial` of
`LoggingConfig`). -/
structure LoggingOverride where
  level : Option String := none
  logRetries : Option Bool := none
  deriving DecidableEq

/-- Client-construction configuration (`types.ts`, `ClientConfig`):
every field optional, sub-objects possibly incomplete. -/
structure ClientConfig where
  maxRetries : Option ℤ := none
  requestTimeout : Option ℤ := none
  globalTimeout : Option ℤ := none
  backoff : Option BackoffOverride := none
  logging : Option LoggingOverride := none
  deriving DecidableEq

/-- The configuration-bearing fields of `RequestOptions` (`types.ts`):
per-call overrides. The `timeout` field is the per-attempt request
timeout override. Method, url, headers, body and query parameters do
not influence the retry logic modelled here and are elided. -/
structure RequestOptions where
  timeout : Option ℤ := none
  maxRetries : Option ℤ := none
  globalTimeout : Option ℤ := none
  backoff : Option BackoffOverride := none
  logging : Option LoggingOverride := none
  deriving DecidableEq

/-- `DEFAULT_CONFIG` of `config.ts`. -/
def DEFAULT_CONFIG : GlobalConfig :=
  { maxRetries := 3
    requestTimeout := 30000
    globalTimeout := 120000
    backoff :=
      { initialDelay := 1000
        multiplier := 2
        maxDelay := 30000
        jitter := true }
    logging :=
      { level := "info"
        logRetries := true } }

/-- The argument type of `setGlobalConfig` (`Partial` of `GlobalConfig`
in `config.ts`). -/
structure GlobalConfigPatch where
  maxRetries : Option ℤ := none
  requestTimeout : Option ℤ := none
  globalTimeout : Option ℤ := none
  backoff : Option BackoffOverride := none
  logging : Option LoggingOverride := none
  deriving DecidableEq

/-- Overlay the present fields of a backoff override onto a complete
backoff object: the spread `{...base, ...p}`. -/
def overlayBackoff (base : BackoffConfig) (p : BackoffOverride) : BackoffConfig :=
  { initialDelay := p.initialDelay.getD base.initialDelay
    multiplier := p.multiplier.getD base.multiplier
    maxDelay := p.maxDelay.getD base.maxDelay
    jitter := p.jitter.getD base.jitter }

/-- Overlay the present fields of a logging override onto a complete
logging object. -/
def overlayLogging (base : LoggingConfig) (p : LoggingOverride) : LoggingConfig :=
  { level := p.level.getD base.level
    logRetries := p.logRetries.getD base.logRetries }

/-- Overlay an optional override object: an absent object spreads
nothing. -/
def overlayBackoffOpt (base : BackoffConfig) (p : Option BackoffOverride) : BackoffConfig :=
  match p with
  | none => base
  | some p => overlayBackoff base p

/-- Overlay an optional logging override object. -/
def overlayLoggingOpt (base : LoggingConfig) (p : Option LoggingOverride) : LoggingConfig :=
  match p with
  | none => base
  | some p => overlayLogging base p

/-- `setGlobalConfig` (`config.ts` lines 34-47) as a pure state update:
`globalConfig = {...globalConfig, ...config, backoff: {...globalConfig.backoff,
...config.backoff}, logging: {...globalConfig.logging, ...config.logging}}`. -/
def setGlobalConfig (g : GlobalConfig) (config : GlobalConfigPatch) : GlobalConfig :=
  { maxRetries := config.maxRetries.getD g.maxRetries
    requestTimeout := config.requestTimeout.getD g.requestTimeout
    globalTimeout := config.globalTimeout.getD g.globalTimeout
    backoff := overlayBackoffOpt g.backoff config.backoff
    logging := overlayLoggingOpt g.logging config.logging }

/-- `calculateBackoffDelay` (`utils.ts` lines 26-44). The `Math.random()`
draw used when jitter is enabled is passed in as the parameter `r`
(the function itself keeps no state). Mirrors the source steps:
exponential delay, cap at `maxDelay`, optional jitter factor
`0.5 + random() * 0.5`, floor to integer milliseconds. -/
def calculateBackoffDelay (attempt : ℕ) (config : BackoffConfig) (r : ℚ) : ℤ :=
  let delay := config.initialDelay * config.multiplier ^ attempt
  let delay := min delay config.maxDelay
  let delay := if config.jitter then delay * (1/2 + r * (1/2)) else delay
  ⌊delay⌋

/-- `isRetryableStatus` (`utils.ts` lines 49-52): only status 500 is
retryable. -/
def isRetryableStatus (status : ℤ) : Bool :=
  status == 500

/-- The retryable OS error codes of `isRetryableError` (`utils.ts`
lines 58-66). -/
def retryableCodes : List String :=
  ["ECONNREFUSED", "ECONNRESET", "ETIMEDOUT", "ENOTFOUND",
   "EAI_AGAIN", "ENETUNREACH", "EHOSTUNREACH"]

/-- `isRetryableError` (`utils.ts` lines 57-69) on the optional `code`
property of an error: `error.code ? retryableCodes.includes(error.code)
: false`. An absent code or an empty string is falsy in JS. -/
def isRetryableError (code : Option String) : Bool :=
  match code with
  | none => false
  | some c => if c.isEmpty then false else retryableCodes.contains c

/-- The error taxonomy of `types.ts` as a tagged union. `httpError`
carries the status (status text, headers and body elided);
`timeoutError` carries the timeout budget and the elapsed time;
`networkError` carries the OS error code; `retryExhaustedError`
carries the attempts count, the elapsed time and the last underlying
error. `genericError` stands for a plain JS `Error` outside the four
classes, possibly carrying a `code` property; `canRetry` in
`client.ts` handles such errors through its code-property fallthrough.
The `lastError` of `retryExhaustedError` is an `Option` because the
loop variable `lastError` of `client.ts` starts as `null` and is
passed with a non-null assertion. -/
inductive Err where
  | httpError (status : ℤ)
  | timeoutError (timeoutMs : ℤ) (elapsedMs : ℤ)
  | networkError (code : String)
  | retryExhaustedError (attempts : ℤ) (elapsedMs : ℤ) (lastError : Option Err)
  | genericError (code : Option String)

/-- The `code` property an error exposes to the fallthrough check of
`canRetry`: a `NetworkError` carries its code field, a plain error its
optional `code` property, the other classes none. -/
def errCode : Err → Option String
  | .networkError c => some c
  | .genericError c => c
  | _ => none

/-- `HttpClient.canRetry` (`client.ts` lines 324-341): `instanceof
HttpError` defers to `isRetryableStatus`; `instanceof TimeoutError`
or `NetworkError` is retryable unconditionally; any other error is
retryable exactly when it has a truthy `code` property accepted by
`isRetryableError`. -/
def canRetry (error : Err) : Bool :=
  match error with
  | .httpError status => isRetryableStatus status
  | .timeoutError _ _ => true
  | .networkError _ => true
  | e => isRetryableError (errCode e)

/-- `HttpClient` constructor (`client.ts` lines 42-66): snapshots a
complete `GlobalConfig` from the optional `ClientConfig` argument,
filling every absent field from the process-wide configuration read
at construction time (`clientConfig?.x ?? globalConfig.x`, per leaf
field of the sub-objects). -/
def mkClientSnapshot (clientConfig : Option ClientConfig) (globalConfig : GlobalConfig) :
    GlobalConfig :=
  { maxRetries := (clientConfig.bind (·.maxRetries)).getD globalConfig.maxRetries
    requestTimeout := (clientConfig.bind (·.requestTimeout)).getD globalConfig.requestTimeout
    globalTimeout := (clientConfig.bind (·.globalTimeout)).getD globalConfig.globalTimeout
    backoff :=
      { initialDelay :=
          ((clientConfig.bind (·.backoff)).bind (·.initialDelay)).getD
            globalConfig.backoff.initialDelay
        multiplier :=
          ((clientConfig.bind (·.backoff)).bind (·.multiplier)).getD
            globalConfig.backoff.multiplier
        maxDelay :=
          ((clientConfig.bind (·.backoff)).bind (·.maxDelay)).getD
            globalConfig.backoff.maxDelay
        jitter :=
          ((clientConfig.bind (·.backoff)).bind (·.jitter)).getD
            globalConfig.backoff.jitter }
    logging :=
      { level :=
          ((clientConfig.bind (·.logging)).bind (·.level)).getD
            globalConfig.logging.level
        logRetries :=
          ((clientConfig.bind (·.logging)).bind (·.logRetries)).getD
            globalConfig.logging.logRetries } }

/-- The resolved configuration produced by `mergeRequestConfig`
(the `headers` field, always `{}` in the source, is elided). -/
structure ResolvedConfig where
  maxRetries : ℤ
  requestTimeout : ℤ
  globalTimeout : ℤ
  backoff : BackoffConfig
  logging : LoggingConfig
  deriving DecidableEq

/-- `HttpClient.mergeRequestConfig` (`client.ts` lines 358-379).
`clientSnapshot` is `this.config` (the complete snapshot built by the
constructor); `currentGlobalConfig` is the fresh `getGlobalConfig()`
read. The scalar fields are `options.x ?? currentGlobalConfig.x`
(`this.config` is not consulted for them). The sub-objects are the
spreads `{...currentGlobalConfig.backoff, ...this.config.backoff,
...options.backoff}` (and likewise for logging); since
`this.config.backoff` and `this.config.logging` always carry every
field, spreading them replaces every field of the current global
sub-object, and the per-call override is then overlaid field-by-field. -/
def mergeRequestConfig (clientSnapshot : GlobalConfig) (currentGlobalConfig : GlobalConfig)
    (options : RequestOptions) : ResolvedConfig :=
  { maxRetries := options.maxRetries.getD currentGlobalConfig.maxRetries
    requestTimeout := options.timeout.getD currentGlobalConfig.requestTimeout
    globalTimeout := options.globalTimeout.getD currentGlobalConfig.globalTimeout
    backoff :=
      overlayBackoffOpt
        { initialDelay := clientSnapshot.backoff.initialDelay
          multiplier := clientSnapshot.backoff.multiplier
          maxDelay := clientSnapshot.backoff.maxDelay
          jitter := clientSnapshot.backoff.jitter }
        options.backoff
    logging :=
      overlayLoggingOpt
        { level := clientSnapshot.logging.level
          logRetries := clientSnapshot.logging.logRetries }
        options.logging }

/-- The raw transport outcome of one network attempt, before
`executeRequest` classifies it: a response arrived with some status
code, the per-attempt timeout fired, or the socket errored with an
optional OS error code. -/
inductive TransportEvent where
  | gotResponse (status : ℤ)
  | attemptTimeout
  | socketError (code : Option String)

/-- Outcome of one `executeRequest` invocation: a resolved `Response`
(represented by its status; the promise resolves only for status below
400) or a rejection with a classified error. -/
inductive AttemptResult where
  | success (status : ℤ)
  | failure (e : Err)

/-- The code string a `NetworkError` is constructed with:
`error.code || 'UNKNOWN'` (`client.ts` line 202 and 302); an absent or
empty (falsy) code becomes `UNKNOWN`. -/
def networkErrorCode (code : Option String) : String :=
  match code with
  | none => "UNKNOWN"
  | some c => if c.isEmpty then "UNKNOWN" else c

/-- The outcome classification of `HttpClient.executeRequest`
(`client.ts` lines 250-318): a response with a retryable status (500)
rejects with `HttpError`; any other status at least 400 rejects with
`HttpError`; otherwise the response resolves. A per-attempt timeout
rejects with `TimeoutError(config.requestTimeout,
config.requestTimeout)`; a socket error rejects with `NetworkError`. -/
def executeRequest (config : ResolvedConfig) (ev : TransportEvent) : AttemptResult :=
  match ev with
  | .gotResponse status =>
      if isRetryableStatus status then .failure (.httpError status)
      else if status ≥ 400 then .failure (.httpError status)
      else .success status
  | .attemptTimeout => .failure (.timeoutError config.requestTimeout config.requestTimeout)
  | .socketError code => .failure (.networkError (networkErrorCode code))

/-- The oracle environment of one `request` call: `elapsedAt n` is the
value of `Date.now() - startTime` read at entry to the loop iteration
whose `attemptNumber` is `n`; `transport n` is the raw outcome of the
n-th network attempt; `rand n` is the `Math.random()` draw of the n-th
retry backoff computation; `finalElapsed` is the `Date.now() -
startTime` read when a `RetryExhaustedError` is constructed. -/
structure RequestEnv where
  elapsedAt : ℕ → ℤ
  transport : ℕ → TransportEvent
  rand : ℕ → ℚ
  finalElapsed : ℤ

/-- Terminal outcome of a `request` call: a returned `Response`
(represented by its status) or a thrown error. -/
inductive ReqOutcome where
  | ok (status : ℤ)
  | thrown (e : Err)

/-- Observable trace of one `request` call: the terminal outcome, the
number of network attempts actually made (invocations of
`executeRequest` that reached the transport), and the backoff delays
slept, in order. -/
structure RunResult where
  result : ReqOutcome
  attemptsMade : ℕ
  sleeps : List ℤ

/-- The body of the `try` block of one loop iteration (`client.ts`
lines 86-107): on entry, if the elapsed wall-clock time has reached
`config.globalTimeout`, a `TimeoutError` is thrown — inside the `try`,
so it lands in the same `catch` clause as an attempt failure, and no
network attempt is made (second component `false`); otherwise
`executeRequest` runs (second component `true`: one network attempt
was made). -/
def tryAttempt (config : ResolvedConfig) (env : RequestEnv) (attemptNumber : ℕ) :
    AttemptResult × Bool :=
  if env.elapsedAt attemptNumber ≥ config.globalTimeout then
    (.failure (.timeoutError config.globalTimeout (env.elapsedAt attemptNumber)), false)
  else
    (executeRequest config (env.transport attemptNumber), true)

/-- The retry loop of `HttpClient.request` (`client.ts` lines 81-150).
State: `attemptNumber` (0-based), `lastError`, plus the observable
trace accumulators `attemptsMade` and `sleeps`. One unfolding is one
iteration of `while (attemptNumber < maxAttempts)` with
`maxAttempts = 1 + config.maxRetries`:
- on entry, if `Date.now() - startTime >= config.globalTimeout`, a
  `TimeoutError` is thrown inside the `try` block (so it lands in the
  same `catch` as an attempt failure, without a network attempt);
- otherwise `executeRequest` runs: success returns the response;
- in the `catch`: `lastError := error; attemptNumber++`; if the budget
  is exhausted or the error is not retryable, a non-retryable error is
  rethrown as-is, else the loop breaks to throw
  `RetryExhaustedError(attemptNumber, elapsed, lastError)`; otherwise
  the backoff delay for retry `attemptNumber` is computed as
  `calculateBackoffDelay(retryNumber - 1, config.backoff)` and slept.
The loop guard is checked against `1 + config.maxRetries` exactly as
in the source; the structural `fuel` argument merely bounds the
recursion depth and is started at `(1 + config.maxRetries).toNat`, so
`fuel = 0` can only coincide with an already-false guard, where both
produce the `RetryExhaustedError` exit of lines 142-149. -/
def requestLoop (config : ResolvedConfig) (env : RequestEnv) :
    (fuel : ℕ) → (attemptNumber : ℕ) → (lastError : Option Err) →
    (attemptsMade : ℕ) → (sleeps : List ℤ) → RunResult
  | 0, attemptNumber, lastError, attemptsMade, sleeps =>
      ⟨.thrown (.retryExhaustedError attemptNumber env.finalElapsed lastError),
        attemptsMade, sleeps⟩
  | fuel + 1, attemptNumber, lastError, attemptsMade, sleeps =>
      if (attemptNumber : ℤ) < 1 + config.maxRetries then
        match tryAttempt config env attemptNumber with
        | (.success s, _) => ⟨.ok s, attemptsMade + 1, sleeps⟩
        | (.failure e, attempted) =>
            let attemptsMade := if attempted then attemptsMade + 1 else attemptsMade
            let attemptNumber := attemptNumber + 1
            if (attemptNumber : ℤ) ≥ 1 + config.maxRetries ∨ ¬ canRetry e then
              if ¬ canRetry e then ⟨.thrown e, attemptsMade, sleeps⟩
              else
                ⟨.thrown (.retryExhaustedError attemptNumber env.finalElapsed (some e)),
                  attemptsMade, sleeps⟩
            else
              let retryNumber := attemptNumber
              let delay := calculateBackoffDelay (retryNumber - 1) config.backoff
                (env.rand (retryNumber - 1))
              requestLoop config env fuel attemptNumber (some e) attemptsMade
                (sleeps ++ [delay])
      else
        ⟨.thrown (.retryExhaustedError attemptNumber env.finalElapsed lastError),
          attemptsMade, sleeps⟩

/-- One `request` call run against an already-resolved configuration:
the loop starting at `attemptNumber = 0`, `lastError = null`, with no
attempts made and no sleeps yet. -/
def requestRun (config : ResolvedConfig) (env : RequestEnv) : RunResult :=
  requestLoop config env (1 + config.maxRetries).toNat 0 none 0 []

/-- `HttpClient.request` (`client.ts` lines 71-150). `globals k` is the
value `getGlobalConfig()` would return at its k-th invocation during
this call; the source invokes it exactly once, inside the single
`mergeRequestConfig` call at line 73, before the loop — index 0. -/
def request (clientSnapshot : GlobalConfig) (globals : ℕ → GlobalConfig)
    (options : RequestOptions) (env : RequestEnv) : RunResult :=
  let config := mergeRequestConfig clientSnapshot (globals 0) options
  requestRun config env

/-- Transport-level events of one `requestStream` call: either a
response arrived (with a status, a sequence of body chunks, and
optionally a mid-stream error after those chunks instead of a clean
end), or the request timed out before a response, or the request
errored. -/
inductive StreamEvent where
  | response (status : ℤ) (chunks : List String) (midStreamError : Option String)
  | reqTimeout
  | reqError (code : Option String)

/-- Terminal outcome of a `requestStream` call. -/
inductive StreamResult where
  | resolved
  | rejected (e : Err)

/-- `HttpClient.requestStream` (`client.ts` lines 155-216): the body
chunks are forwarded to `onChunk` in arrival order; `end` resolves the
promise; the status code of the response is never read. A mid-stream
`error` event rejects with the raw stream error (not wrapped); a
request `timeout` rejects with `TimeoutError`; a request `error`
rejects with `NetworkError`. The first component is the list of
`onChunk` invocations, in order. -/
def requestStream (config : ResolvedConfig) (ev : StreamEvent) :
    List String × StreamResult :=
  match ev with
  | .response _ chunks none => (chunks, .resolved)
  | .response _ chunks (some code) => (chunks, .rejected (.genericError (some code)))
  | .reqTimeout =>
      ([], .rejected (.timeoutError config.requestTimeout config.requestTimeout))
  | .reqError code => ([], .rejected (.networkError (networkErrorCode code)))

/-- Whether an error belongs to the four public error classes of
`types.ts` (`HttpError`, `TimeoutError`, `NetworkError`,
`RetryExhaustedError`). -/
def isClientErrKind : Err → Bool
  | .httpError _ => true
  | .timeoutError _ _ => true
  | .networkError _ => true
  | .retryExhaustedError _ _ _ => true
  | .genericError _ => false

lemma executeRequest_failure_kind (config : ResolvedConfig) (ev : TransportEvent) (e : Err)
    (h : executeRequest config ev = .failure e) : isClientErrKind e = true := by
  cases ev with
  | gotResponse s =>
      simp only [executeRequest] at h
      split at h
      · cases h; rfl
      · split at h
        · cases h; rfl
        · cases h
  | attemptTimeout => simp only [executeRequest] at h; cases h; rfl
  | socketError c => simp only [executeRequest] at h; cases h; rfl

lemma tryAttempt_failure_kind (config : ResolvedConfig) (env : RequestEnv) (a : ℕ)
    (e : Err) (attempted : Bool) (h : tryAttempt config env a = (.failure e, attempted)) :
    isClientErrKind e = true := by
  simp only [tryAttempt] at h
  split at h
  · cases h; rfl
  · exact executeRequest_failure_kind config (env.transport a) e
      (congrArg Prod.fst h)

lemma requestLoop_result_kind (config : ResolvedConfig) (env : RequestEnv) :
    ∀ (fuel attemptNumber attemptsMade : ℕ) (lastError : Option Err) (sleeps : List ℤ),
    (∃ s, (requestLoop config env fuel attemptNumber lastError attemptsMade sleeps).result
        = .ok s) ∨
    (∃ e, (requestLoop config env fuel attemptNumber lastError attemptsMade sleeps).result
        = .thrown e ∧ isClientErrKind e = true) := by
  intro fuel
  induction fuel with
  | zero => intro a m le s; exact .inr ⟨_, rfl, rfl⟩
  | succ f ih =>
      intro a m le s
      rw [requestLoop]
      split
      · rcases hT : tryAttempt config env a with ⟨r, attempted⟩
        cases r with
        | success st => exact .inl ⟨st, rfl⟩
        | failure e =>
            have hk := tryAttempt_failure_kind config env a e attempted hT
            dsimp only
            split
            · split
              · exact .inr ⟨e, rfl, hk⟩
              · exact .inr ⟨_, rfl, rfl⟩
            · exact ih _ _ _ _
      · exact .inr ⟨_, rfl, rfl⟩

lemma requestLoop_attemptsMade_le (config : ResolvedConfig) (env : RequestEnv) :
    ∀ (fuel attemptNumber attemptsMade : ℕ) (lastError : Option Err) (sleeps : List ℤ),
    (requestLoop config env fuel attemptNumber lastError attemptsMade sleeps).attemptsMade
      ≤ attemptsMade + fuel := by
  intro fuel
  induction fuel with
  | zero => intro a m le s; simp [requestLoop]
  | succ f ih =>
      intro a m le s
      rw [requestLoop]
      split
      · rcases hT : tryAttempt config env a with ⟨r, attempted⟩
        cases r with
        | success st => dsimp only; omega
        | failure e =>
            dsimp only
            split
            · split
              · dsimp only; split <;> omega
              · dsimp only; split <;> omega
            · refine le_trans (ih _ _ _ _) ?_
              split <;> omega
      · dsimp only; omega

/-- C5: for every retry number and backoff configuration, the computed
backoff delay is the floor of `min(initialDelay * multiplier ^
retryNumber, maxDelay)`, multiplied — after the cap — by the jitter
factor `0.5 + r * 0.5` when jitter is enabled, where `r` is the
`Math.random()` draw; and with `initialDelay = 100`, `multiplier = 2`,
`maxDelay = 1000`, `jitter = false` the successive retry delays are
100, 200, 400, 800, 1000, 1000. The function is pure: its value
depends only on its arguments. -/
theorem backoff_delay_closed_form_and_sequence :
    (∀ (retryNumber : ℕ) (config : BackoffConfig) (r : ℚ),
      calculateBackoffDelay retryNumber config r =
        if config.jitter then
          ⌊min (config.initialDelay * config.multiplier ^ retryNumber) config.maxDelay *
            (1/2 + r * (1/2))⌋
        else
          ⌊min (config.initialDelay * config.multiplier ^ retryNumber) config.maxDelay⌋) ∧
    (List.range 6).map (fun n => calculateBackoffDelay n ⟨100, 2, 1000, false⟩ 0) =
      [100, 200, 400, 800, 1000, 1000] := by
  constructor
  · intro n config r
    unfold calculateBackoffDelay
    cases hj : config.jitter <;> simp [hj]
  · norm_num [List.range_succ, calculateBackoffDelay]

/-- C9: `requestStream` never inspects the HTTP status code: a response
whose stream ends cleanly resolves with every chunk forwarded to the
callback in order, whatever the status (including statuses at least
400); the whole behaviour is independent of the status; and no stream
outcome ever rejects with an `HttpError`. -/
theorem requestStream_status_blind :
    (∀ (config : ResolvedConfig) (status : ℤ) (chunks : List String),
      requestStream config (.response status chunks none) = (chunks, .resolved)) ∧
    (∀ (config : ResolvedConfig) (s s' : ℤ) (chunks : List String) (me : Option String),
      requestStream config (.response s chunks me) =
        requestStream config (.response s' chunks me)) ∧
    (∀ (config : ResolvedConfig) (ev : StreamEvent) (st : ℤ),
      (requestStream config ev).2 ≠ .rejected (.httpError st)) := by
  refine ⟨fun _ _ _ => rfl, fun config s s' chunks me => by cases me <;> rfl, ?_⟩
  intro config ev st
  cases ev with
  | response s chunks me => cases me <;> simp [requestStream]
  | reqTimeout => simp [requestStream]
  | reqError c => simp [requestStream]

/-- C10: when the resolved `maxRetries` is negative (out-of-range
values are accepted unvalidated), the loop guard fails immediately:
no network attempt is made, no backoff sleep happens, and the call
throws `RetryExhaustedError` with `attempts = 0` and a null
`lastError`. -/
theorem negative_maxRetries_zero_attempts (config : ResolvedConfig) (env : RequestEnv)
    (h : config.maxRetries < 0) :
    requestRun config env =
      ⟨.thrown (.retryExhaustedError 0 env.finalElapsed none), 0, []⟩ := by
  have h0 : (1 + config.maxRetries).toNat = 0 := by omega
  rw [requestRun, h0]
  rfl

/-- A resolved configuration with a negative retry budget, used to
exercise the negative-`maxRetries` path on a concrete input. -/
def negRetryConfig : ResolvedConfig :=
  { maxRetries := -1
    requestTimeout := 30000
    globalTimeout := 120000
    backoff := ⟨1000, 2, 30000, true⟩
    logging := ⟨"info", true⟩ }

/-- An environment where the clock stays at zero, every attempt would
return status 200, and the final elapsed reading is 5 ms. -/
def calmEnv : RequestEnv :=
  { elapsedAt := fun _ => 0
    transport := fun _ => .gotResponse 200
    rand := fun _ => 0
    finalElapsed := 5 }

/-- C10 witness: the negative-`maxRetries` theorem applied at
`maxRetries = -1` on a concrete environment. -/
theorem negative_maxRetries_zero_attempts_witness :
    requestRun negRetryConfig calmEnv =
      ⟨.thrown (.retryExhaustedError 0 calmEnv.finalElapsed none), 0, []⟩ :=
  negative_maxRetries_zero_attempts negRetryConfig calmEnv (by norm_num [negRetryConfig])

lemma requestRun_fatal_first_attempt (config : ResolvedConfig) (env : RequestEnv) (e : Err)
    (hmr : 0 ≤ config.maxRetries)
    (hel : env.elapsedAt 0 < config.globalTimeout)
    (hex : executeRequest config (env.transport 0) = .failure e)
    (hcr : canRetry e = false) :
    requestRun config env = ⟨.thrown e, 1, []⟩ := by
  obtain ⟨f, hf⟩ : ∃ f, (1 + config.maxRetries).toNat = f + 1 :=
    ⟨(1 + config.maxRetries).toNat - 1, by omega⟩
  have hT : tryAttempt config env 0 = (.failure e, true) := by
    rw [tryAttempt, if_neg (not_le.mpr hel), hex]
  have hguard : ((0 : ℕ) : ℤ) < 1 + config.maxRetries := by omega
  rw [requestRun, hf, requestLoop, if_pos hguard, hT]
  simp [hcr]

/-- C8: when the first attempt fails with a non-retryable failure, the
call rethrows that original error unwrapped, after exactly one network
attempt and with no backoff sleep (stated for any nonnegative retry
budget, with the global timeout not yet expired). -/
theorem fatal_error_propagates_unwrapped (config : ResolvedConfig) (env : RequestEnv)
    (e : Err) (hmr : 0 ≤ config.maxRetries)
    (hel : env.elapsedAt 0 < config.globalTimeout)
    (hex : executeRequest config (env.transport 0) = .failure e)
    (hcr : canRetry e = false) :
    requestRun config env = ⟨.thrown e, 1, []⟩ :=
  requestRun_fatal_first_attempt config env e hmr hel hex hcr

/-- A resolved configuration with the default budgets. -/
def stockConfig : ResolvedConfig :=
  { maxRetries := 3
    requestTimeout := 30000
    globalTimeout := 120000
    backoff := ⟨1000, 2, 30000, true⟩
    logging := ⟨"info", true⟩ }

/-- An environment whose server answers every attempt with status 404. -/
def notFoundEnv : RequestEnv :=
  { elapsedAt := fun _ => 0
    transport := fun _ => .gotResponse 404
    rand := fun _ => 0
    finalElapsed := 5 }

/-- C8 witness: a 404 response on the first attempt makes the call
throw `HttpError(404)` itself, with one attempt and no sleep. -/
theorem fatal_error_propagates_unwrapped_witness :
    requestRun stockConfig notFoundEnv = ⟨.thrown (.httpError 404), 1, []⟩ :=
  fatal_error_propagates_unwrapped stockConfig notFoundEnv (.httpError 404)
    (by norm_num [stockConfig])
    (by norm_num [stockConfig, notFoundEnv])
    (by rfl)
    (by rfl)

/-- C3 counterexample: `EPIPE` is not one of the seven retryable OS
error codes, yet a `NetworkError` carrying it is classified as
retryable — `canRetry` accepts every `NetworkError` instance before
ever consulting the code list. -/
theorem networkError_unlisted_code_still_retryable :
    canRetry (.networkError "EPIPE") = true ∧ "EPIPE" ∉ retryableCodes := by
  exact ⟨rfl, by decide⟩

/-- C3 amended: a failure is classified retryable exactly when it is a
`TimeoutError`, or a `NetworkError` with any code whatsoever, or an
`HttpError` with status exactly 500, or a plain error whose `code`
property is one of the seven listed OS codes; and every `HttpError`
with another status at least 400 is fatal — it propagates unwrapped on
first occurrence, after one attempt and with no backoff sleep. -/
theorem retryable_classification_amended :
    (∀ e : Err, canRetry e = true ↔
      ((∃ t el, e = .timeoutError t el) ∨ (∃ c, e = .networkError c) ∨
       e = .httpError 500 ∨
       (∃ c, e = .genericError (some c) ∧ c ∈ retryableCodes))) ∧
    (∀ (config : ResolvedConfig) (env : RequestEnv) (s : ℤ),
      0 ≤ config.maxRetries → env.elapsedAt 0 < config.globalTimeout →
      env.transport 0 = .gotResponse s → 400 ≤ s → s ≠ 500 →
      requestRun config env = ⟨.thrown (.httpError s), 1, []⟩) := by
  constructor
  · intro e
    cases e with
    | httpError s => simp [canRetry, isRetryableStatus]
    | timeoutError t el => simp [canRetry]
    | networkError c => simp [canRetry]
    | retryExhaustedError a el le => simp [canRetry, errCode, isRetryableError]
    | genericError c =>
        cases c with
        | none => simp [canRetry, errCode, isRetryableError]
        | some s =>
            by_cases hs : s.isEmpty
            · have hsv : s = "" := by simpa [String.isEmpty_iff] using hs
              subst hsv
              simp [canRetry, errCode, isRetryableError]
              decide
            · simp [canRetry, errCode, isRetryableError, hs]
  · intro config env s hmr hel ht hs400 hs500
    have hex : executeRequest config (env.transport 0) = .failure (.httpError s) := by
      rw [ht]
      simp [executeRequest, isRetryableStatus]
      intro h
      omega
    have hcr : canRetry (.httpError s) = false := by
      simp [canRetry, isRetryableStatus, hs500]
    exact requestRun_fatal_first_attempt config env (.httpError s) hmr hel hex hcr

/-- C3 amended witness: the classification equivalence instantiated at
a concrete `TimeoutError`, and the fatal-propagation part applied to a
concrete 404 answer on the default-budget configuration. -/
theorem retryable_classification_amended_witness :
    canRetry (.timeoutError 1 2) = true ∧
    requestRun stockConfig notFoundEnv = ⟨.thrown (.httpError 404), 1, []⟩ :=
  ⟨(retryable_classification_amended.1 (.timeoutError 1 2)).mpr (.inl ⟨1, 2, rfl⟩),
    retryable_classification_amended.2 stockConfig notFoundEnv 404
      (by norm_num [stockConfig])
      (by norm_num [stockConfig, notFoundEnv])
      rfl
      (by norm_num)
      (by norm_num)⟩

/-- A resolved configuration whose retry budget is -2, two below the
first in-range value, accepted unvalidated. -/
def negTwoRetryConfig : ResolvedConfig :=
  { maxRetries := -2
    requestTimeout := 30000
    globalTimeout := 120000
    backoff := ⟨1000, 2, 30000, true⟩
    logging := ⟨"info", true⟩ }

/-- C6 counterexample: with resolved `maxRetries = -2` (out-of-range
values are accepted unvalidated) the call makes 0 attempts, and 0
exceeds `1 + maxRetries = -1`, so the claimed bound `attempts ≤ 1 +
maxRetries` is violated. -/
theorem attempts_bound_violated_at_negative_budget :
    ¬ (((requestRun negTwoRetryConfig calmEnv).attemptsMade : ℤ) ≤
        1 + negTwoRetryConfig.maxRetries) := by
  have h0 : (1 + negTwoRetryConfig.maxRetries).toNat = 0 := by norm_num [negTwoRetryConfig]
  rw [requestRun, h0, requestLoop]
  norm_num [negTwoRetryConfig]

/-- C6 amended: for every call, the number of network attempts made is
at most `max (1 + maxRetries) 0`, and the terminal outcome is either a
returned response or a thrown error of one of the four kinds
`HttpError`, `TimeoutError`, `NetworkError`, `RetryExhaustedError` —
no failure is silently dropped. -/
theorem attempts_bounded_and_every_exit_classified (config : ResolvedConfig)
    (env : RequestEnv) :
    (((requestRun config env).attemptsMade : ℤ) ≤ max (1 + config.maxRetries) 0) ∧
    ((∃ s, (requestRun config env).result = .ok s) ∨
     (∃ e, (requestRun config env).result = .thrown e ∧ isClientErrKind e = true)) := by
  constructor
  · have h := requestLoop_attemptsMade_le config env ((1 + config.maxRetries).toNat)
      0 0 none []
    rw [requestRun]
    omega
  · exact requestLoop_result_kind config env _ 0 0 none []

lemma requestLoop_succ_retry (config : ResolvedConfig) (env : RequestEnv)
    (fuel a m : ℕ) (le : Option Err) (s : List ℤ) (e : Err)
    (hT : tryAttempt config env a = (.failure e, true))
    (hcr : canRetry e = true)
    (hcont : ((a + 1 : ℕ) : ℤ) < 1 + config.maxRetries) :
    requestLoop config env (fuel + 1) a le m s =
      requestLoop config env fuel (a + 1) (some e) (m + 1)
        (s ++ [calculateBackoffDelay a config.backoff (env.rand a)]) := by
  have hguard : ((a : ℕ) : ℤ) < 1 + config.maxRetries := by push_cast at hcont ⊢; omega
  have hstay : ¬ (((a + 1 : ℕ) : ℤ) ≥ 1 + config.maxRetries ∨ ¬ canRetry e = true) := by
    push_cast at hcont ⊢
    simp only [hcr, not_true_eq_false, or_false, not_le]
    omega
  rw [requestLoop, if_pos hguard, hT]
  dsimp only
  rw [if_neg hstay]
  simp

lemma requestLoop_succ_break (config : ResolvedConfig) (env : RequestEnv)
    (fuel a m : ℕ) (le : Option Err) (s : List ℤ) (e : Err)
    (hT : tryAttempt config env a = (.failure e, true))
    (hcr : canRetry e = true)
    (hguard : ((a : ℕ) : ℤ) < 1 + config.maxRetries)
    (hstop : ((a + 1 : ℕ) : ℤ) ≥ 1 + config.maxRetries) :
    requestLoop config env (fuel + 1) a le m s =
      ⟨.thrown (.retryExhaustedError (a + 1) env.finalElapsed (some e)), m + 1, s⟩ := by
  rw [requestLoop, if_pos hguard, hT]
  dsimp only
  rw [if_pos (Or.inl hstop)]
  rw [if_neg (by simp [hcr])]
  simp

/-- C7: when every attempt fails with a retryable failure — here a
server answering every attempt with status 500 — and the resolved
`maxRetries` is 2, the call throws `RetryExhaustedError` whose
`attempts` field is 3, carrying the final elapsed-time reading and
wrapping the last underlying `HttpError(500)` as `lastError`. -/
theorem always_500_exhausts_after_three_attempts (config : ResolvedConfig)
    (env : RequestEnv) (hmr : config.maxRetries = 2)
    (ht : ∀ n, env.transport n = .gotResponse 500)
    (hel : ∀ n, env.elapsedAt n < config.globalTimeout) :
    (requestRun config env).result =
      .thrown (.retryExhaustedError 3 env.finalElapsed (some (.httpError 500))) ∧
    (requestRun config env).attemptsMade = 3 := by
  have hT : ∀ n, tryAttempt config env n = (.failure (.httpError 500), true) := by
    intro n
    rw [tryAttempt, if_neg (not_le.mpr (hel n)), ht n]
    rfl
  have hcr : canRetry (.httpError 500) = true := rfl
  have e1 : requestRun config env =
      requestLoop config env 2 1 (some (.httpError 500)) 1
        [calculateBackoffDelay 0 config.backoff (env.rand 0)] := by
    rw [requestRun, (by omega : (1 + config.maxRetries).toNat = 2 + 1)]
    exact requestLoop_succ_retry config env 2 0 0 none [] _ (hT 0) hcr (by omega)
  have e2 : requestLoop config env 2 1 (some (.httpError 500)) 1
        [calculateBackoffDelay 0 config.backoff (env.rand 0)] =
      requestLoop config env 1 2 (some (.httpError 500)) 2
        [calculateBackoffDelay 0 config.backoff (env.rand 0),
         calculateBackoffDelay 1 config.backoff (env.rand 1)] :=
    requestLoop_succ_retry config env 1 1 1 (some (.httpError 500)) _ _ (hT 1) hcr
      (by omega)
  have e3 : requestLoop config env 1 2 (some (.httpError 500)) 2
        [calculateBackoffDelay 0 config.backoff (env.rand 0),
         calculateBackoffDelay 1 config.backoff (env.rand 1)] =
      ⟨.thrown (.retryExhaustedError 3 env.finalElapsed (some (.httpError 500))), 3,
        [calculateBackoffDelay 0 config.backoff (env.rand 0),
         calculateBackoffDelay 1 config.backoff (env.rand 1)]⟩ :=
    requestLoop_succ_break config env 0 2 2 (some (.httpError 500)) _ _ (hT 2) hcr
      (by omega) (by omega)
  have hrun := (e1.trans e2).trans e3
  exact ⟨by rw [hrun], by rw [hrun]⟩

/-- A resolved configuration with a 2-retry budget and a no-jitter
100-ms-based backoff. -/
def twoRetryConfig : ResolvedConfig :=
  { maxRetries := 2
    requestTimeout := 30000
    globalTimeout := 120000
    backoff := ⟨100, 2, 1000, false⟩
    logging := ⟨"info", true⟩ }

/-- An environment whose server answers every attempt with status 500. -/
def always500Env : RequestEnv :=
  { elapsedAt := fun _ => 0
    transport := fun _ => .gotResponse 500
    rand := fun _ => 0
    finalElapsed := 9 }

/-- C7 witness: the always-500 theorem applied to the concrete 2-retry
configuration and the always-500 environment. -/
theorem always_500_exhausts_after_three_attempts_witness :
    (requestRun twoRetryConfig always500Env).result =
      .thrown (.retryExhaustedError 3 always500Env.finalElapsed
        (some (.httpError 500))) ∧
    (requestRun twoRetryConfig always500Env).attemptsMade = 3 :=
  always_500_exhausts_after_three_attempts twoRetryConfig always500Env
    (by norm_num [twoRetryConfig])
    (fun _ => rfl)
    (by intro n; norm_num [twoRetryConfig, always500Env])

/-- A resolved configuration whose global-timeout budget is zero, so
the elapsed-time check at loop entry fires from the first iteration. -/
def spentBudgetConfig : ResolvedConfig :=
  { maxRetries := 2
    requestTimeout := 30000
    globalTimeout := 0
    backoff := ⟨100, 2, 1000, false⟩
    logging := ⟨"info", true⟩ }

/-- C1: evaluation of the code at the failing input. With the global
budget already exhausted at entry to every iteration (resolved
`globalTimeout = 0`) and `maxRetries = 2`, the loop throws its
global-timeout `TimeoutError` inside its own `try` block, catches it,
classifies it retryable, sleeps the 100 ms and 200 ms backoff delays,
and finally throws `RetryExhaustedError(attempts = 3)` wrapping the
`TimeoutError` — the `TimeoutError` does not surface directly and
unwrapped as the claim states, no matter how much retry budget
remains. Zero network attempts are made along the way. -/
theorem global_timeout_retried_and_wrapped :
    requestRun spentBudgetConfig calmEnv =
      ⟨.thrown (.retryExhaustedError 3 calmEnv.finalElapsed
        (some (.timeoutError 0 0))), 0, [100, 200]⟩ := by
  norm_num [requestRun, requestLoop, tryAttempt, executeRequest, canRetry,
    isRetryableStatus, calculateBackoffDelay, spentBudgetConfig, calmEnv]

/-- The process-wide configuration after
`setGlobalConfig({ backoff: { initialDelay: 500 } })` starting from the
defaults. -/
def shrunkDelayGlobal : GlobalConfig :=
  setGlobalConfig DEFAULT_CONFIG { backoff := some { initialDelay := some 500 } }

/-- C2: evaluation of the code at the failing input. A client is
constructed with no configuration while the process-wide configuration
is the default (`backoff.initialDelay = 1000`); afterwards
`setGlobalConfig` lowers the process-wide `backoff.initialDelay` to
500; a request with no per-call overrides then resolves
`backoff.initialDelay = 1000`: the complete construction-time snapshot
is spread after the current process-wide sub-object and shadows it,
so the current process-wide value 500 never takes effect — against the
claimed precedence, under which the resolved value would be 500. -/
theorem construction_snapshot_shadows_current_global_backoff :
    (mergeRequestConfig (mkClientSnapshot none DEFAULT_CONFIG) shrunkDelayGlobal
        {}).backoff.initialDelay = 1000 ∧
    shrunkDelayGlobal.backoff.initialDelay = 500 ∧
    mkClientSnapshot none DEFAULT_CONFIG = DEFAULT_CONFIG :=
  ⟨rfl, rfl, rfl⟩

/-- A process-wide configuration with a 2-retry budget and a no-jitter
100-ms-based backoff. -/
def steadyGlobal : GlobalConfig :=
  { maxRetries := 2
    requestTimeout := 30000
    globalTimeout := 120000
    backoff := ⟨100, 2, 1000, false⟩
    logging := ⟨"info", true⟩ }

/-- A history of `getGlobalConfig` reads that never changes. -/
def steadyGlobals : ℕ → GlobalConfig := fun _ => steadyGlobal

/-- A history of `getGlobalConfig` reads where every read after the
first returns a mutated configuration — retry budget zero, initial
backoff delay 7000 ms — as if `setGlobalConfig` ran right after the
call started. -/
def mutatedGlobals : ℕ → GlobalConfig := fun n =>
  if n = 0 then steadyGlobal
  else
    { steadyGlobal with maxRetries := 0, backoff := ⟨7000, 2, 1000, false⟩ }

/-- C4 counterexample: a `setGlobalConfig` mutation visible to every
`getGlobalConfig` read after the first changes nothing about an
in-flight call — the run under the mutated history equals the run
under the constant history, still makes all 3 attempts and still
sleeps the original 100 ms and 200 ms delays, even though the mutated
configuration (retry budget 0, initial delay 7000 ms) would have
changed the subsequent iterations had the resolved configuration been
recomputed on every iteration as the claim states. The resolved
configuration is computed once, from read 0, before the loop. -/
theorem midflight_global_mutation_has_no_effect :
    request steadyGlobal mutatedGlobals {} always500Env =
      request steadyGlobal steadyGlobals {} always500Env ∧
    (mutatedGlobals 1).maxRetries = 0 ∧
    (mutatedGlobals 1).backoff.initialDelay = 7000 ∧
    request steadyGlobal mutatedGlobals {} always500Env =
      ⟨.thrown (.retryExhaustedError 3 always500Env.finalElapsed
        (some (.httpError 500))), 3, [100, 200]⟩ := by
  refine ⟨rfl, rfl, rfl, ?_⟩
  norm_num [request, requestRun, requestLoop, tryAttempt, executeRequest, canRetry,
    isRetryableStatus, calculateBackoffDelay, mergeRequestConfig, mkClientSnapshot,
    overlayBackoffOpt, overlayLoggingOpt, steadyGlobal, mutatedGlobals, always500Env]

/-- C4 amended: the resolved configuration is computed once per call
to `request`, by the single `mergeRequestConfig` invocation before the
loop, which re-reads the process-wide configuration at that point; the
behaviour of the whole call therefore depends only on the first
`getGlobalConfig` read, and a `setGlobalConfig` mutation performed
while the call is in flight cannot change that call (it affects only
configurations resolved later). -/
theorem config_resolved_once_per_call (clientSnapshot : GlobalConfig)
    (globals globals' : ℕ → GlobalConfig) (options : RequestOptions)
    (env : RequestEnv) (h : globals 0 = globals' 0) :
    request clientSnapshot globals options env =
      request clientSnapshot globals' options env := by
  simp only [request, h]

/-- C4 witness: the once-per-call theorem applied to the constant and
the mutated global-configuration histories, which agree at read 0. -/
theorem config_resolved_once_per_call_witness :
    request steadyGlobal mutatedGlobals {} always500Env =
      request steadyGlobal steadyGlobals {} always500Env :=
  config_resolved_once_per_call steadyGlobal mutatedGlobals steadyGlobals {}
    always500Env rfl

end HttpRetry
